import Mathlib

/-!
Verification of the `cloudmonitoring` backend datasource plugin (Go, package
`cloudmonitoring`).  The definitions below are a shallow embedding of the
functions of the plugin's main file: strings are modelled through their
character lists, Go `int`/`int64` as `Nat`/`Int`, Go `float64` as `ℚ` with
explicit truncation where the code converts to `int64`, maps used only for
lookup as association lists, and fallible code as `Option`/`Except`.
Definitions carry the names of the Go functions they embed.
-/

namespace CloudMonitoring

/-- The `{` character, written via its code point. -/
def lbrace : Char := Char.ofNat 123

/-- The `}` character, written via its code point. -/
def rbrace : Char := Char.ofNat 125

/-! ## Generic string helpers (embedding of the Go `strings` primitives used) -/

/-- Embedding of `strings.Count(s, "*")` for a one-character pattern. -/
def countChar (c : Char) (l : List Char) : Nat := l.count c

/-- Embedding of `strings.Replace(s, c, "", 1)` for a one-character pattern:
removes the first occurrence of `c`. -/
def removeFirstChar (c : Char) : List Char → List Char
  | [] => []
  | a :: rest => if a = c then rest else a :: removeFirstChar c rest

/-- Embedding of `strings.HasPrefix(s, p)` via `List.isPrefixOf`. -/
def hasPre (p : List Char) (l : List Char) : Bool := p.isPrefixOf l

/-- Embedding of `strings.HasSuffix(s, p)` (on reversed lists). -/
def hasSuf (p : List Char) (l : List Char) : Bool := p.reverse.isPrefixOf l.reverse

/-- Embedding of the Go `reverse` string helper used by the plugin
(rune-reversal of a string, here character-list reversal). -/
def reverseStr (s : String) : String := ⟨s.data.reverse⟩

/-- Remove the first occurrence of the substring `pat`
(embedding of `strings.Replace(s, pat, "", 1)`). -/
def removeFirstSub (pat : List Char) : List Char → List Char
  | [] => []
  | a :: rest =>
    if pat.isPrefixOf (a :: rest) then (a :: rest).drop pat.length
    else a :: removeFirstSub pat rest

/-- `strings.Trim(s, " ")`: drop space characters from both ends. -/
def trimSpaceEnds (l : List Char) : List Char :=
  ((l.dropWhile (· = ' ')).reverse.dropWhile (· = ' ')).reverse

/-! ## calculateAlignmentPeriod -/

/-- Embedding of `calculateAlignmentPeriod(alignmentPeriod, intervalMs,
durationSeconds)`.  `intervalMs` and `durationSeconds` are modelled as `Nat`
(the Go code receives non-negative interval/duration values); the Go
`int(math.Max(float64 x / 1000, 60.0))` is `max (x / 1000) 60` on naturals,
which agrees with the float computation (truncation past the max of a
non-negative quotient with 60). -/
def calculateAlignmentPeriod (alignmentPeriod : String) (intervalMs : Nat)
    (durationSeconds : Nat) : String :=
  let ap :=
    if alignmentPeriod = "grafana-auto" ∨ alignmentPeriod = "" then
      "+" ++ toString (max (intervalMs / 1000) 60) ++ "s"
    else alignmentPeriod
  if ap = "cloud-monitoring-auto" ∨ ap = "stackdriver-auto" then
    let v := max durationSeconds 60
    if v < 60 * 60 * 23 then "+60s"
    else if v < 60 * 60 * 24 * 6 then "+300s"
    else "+3600s"
  else ap

/-! ## interpolateFilterWildcards and buildFilterString -/

/-- The character class of `wildcardRegexRe`, the Go regexp
`[-\/^$+?.()|[\]\x7b\x7d]`: regex metacharacters escaped by the plugin. -/
def wildcardMetaChars : List Char :=
  ['-', '/', '^', '$', '+', '?', '.', '(', ')', '|', '[', ']', lbrace, rbrace]

/-- Embedding of `wildcardRegexRe.ReplaceAllFunc`: every character of the
class gets `\\` (two backslash characters, as in the Go replacement
literal) prepended. -/
def escapeRegexMeta (l : List Char) : List Char :=
  l.foldr (fun c acc =>
    (if c ∈ wildcardMetaChars then ['\\', '\\', c] else [c]) ++ acc) []

/-- Embedding of `strings.ReplaceAll(value, "*", ".*")`. -/
def starToDotStar (l : List Char) : List Char :=
  l.foldr (fun c acc => (if c = '*' then ['.', '*'] else [c]) ++ acc) []

/-- Embedding of `strings.ReplaceAll(value, "\"", "\\\\\"")` (a quote
becomes two backslashes and a quote). -/
def escapeQuotes (l : List Char) : List Char :=
  l.foldr (fun c acc => (if c = '"' then ['\\', '\\', '"'] else [c]) ++ acc) []

/-- The regex body built by the `matches != 0` branch of
`interpolateFilterWildcards`. -/
def wildcardRegexBody (l : List Char) : List Char :=
  escapeQuotes (starToDotStar (escapeRegexMeta l))

/-- Embedding of `interpolateFilterWildcards(value)`. -/
def interpolateFilterWildcards (value : String) : String :=
  let l := value.data
  let m := countChar '*' l
  if m = 2 ∧ hasSuf ['*'] l ∧ hasPre ['*'] l then
    "has_substring(\"" ++ ⟨l.filter (· ≠ '*')⟩ ++ "\")"
  else if m = 1 ∧ hasPre ['*'] l then
    "ends_with(\"" ++ ⟨removeFirstChar '*' l⟩ ++ "\")"
  else if m = 1 ∧ hasSuf ['*'] l then
    "starts_with(\"" ++ ⟨(removeFirstChar '*' l.reverse).reverse⟩ ++ "\")"
  else if m ≠ 0 then
    "monitoring.regex.full_match(\"^" ++ ⟨wildcardRegexBody l⟩ ++ "$\")"
  else value

/-- One iteration of the `buildFilterString` loop: `i` is the index of
`part` in the token list and `prev` the token at index `i - 1` (the
operator when `i % 4 == 2`). -/
def buildFilterStep (i : Nat) (prev : String) (acc : String) (part : String) : String :=
  if part = "AND" then acc ++ " "
  else if i % 4 = 2 then
    if prev = "=~" ∨ prev = "!=~" then
      ⟨(removeFirstChar '~' acc.data.reverse).reverse⟩ ++
        ("monitoring.regex.full_match(\"" ++ part ++ "\")")
    else if part.data.contains '*' then acc ++ interpolateFilterWildcards part
    else acc ++ "\"" ++ part ++ "\""
  else acc ++ part

/-- The `buildFilterString` loop over the token list, carrying the index
and the previous token. -/
def buildFilterLoop : List String → Nat → String → String → String
  | [], _, _, acc => acc
  | part :: rest, i, prev, acc =>
    buildFilterLoop rest (i + 1) part (buildFilterStep i prev acc part)

/-- Embedding of `buildFilterString(metricType, filterParts)`. -/
def buildFilterString (metricType : String) (filterParts : List String) : String :=
  let filterString := buildFilterLoop filterParts 0 "" ""
  ⟨trimSpaceEnds ("metric.type=\"" ++ metricType ++ "\" " ++ filterString).data⟩

/-! ## Query model and aggregation parameters -/

/-- The `PreprocessorType` enum. -/
inductive PreprocessorType
  | none
  | rate
  | delta
deriving DecidableEq, Repr

/-- Modelled from the spec: `toPreprocessorType` (in a file not under
`src/`) maps the metric query's declared preprocessor string onto the
preprocessor kind \x7bNone, Rate, Delta\x7d; unknown strings mean no
preprocessor. -/
def toPreprocessorType (s : String) : PreprocessorType :=
  if s = "rate" then .rate
  else if s = "delta" then .delta
  else .none

/-- The fields of the Go `metricQuery` struct, as used by this file
(`buildQueryExecutors`, `setMetricAggParams`, `buildFilterString`). -/
structure MetricQuery where
  projectName : String := ""
  metricType : String := ""
  filters : List String := []
  groupBys : List String := []
  crossSeriesReducer : String := ""
  perSeriesAligner : String := ""
  alignmentPeriod : String := ""
  preprocessor : String := ""
  preprocessorType : PreprocessorType := .none
  editorMode : String := ""
  query : String := ""
  aliasBy : String := ""
  view : String := ""
deriving DecidableEq, Repr

/-- The fields of the Go `sloQuery` struct, as used by this file. -/
structure SloQuery where
  projectName : String := ""
  aliasBy : String := ""
  selectorName : String := ""
  serviceId : String := ""
  sloId : String := ""
  alignmentPeriod : String := ""
deriving DecidableEq, Repr

/-- `crossSeriesReducerDefault` constant. -/
def crossSeriesReducerDefault : String := "REDUCE_NONE"

/-- `perSeriesAlignerDefault` constant. -/
def perSeriesAlignerDefault : String := "ALIGN_MEAN"

/-- `url.Values` is used only through `Add` (append a key/value pair) in
this file; it is modelled as the list of added pairs in insertion order. -/
abbrev Params := List (String × String)

/-- Embedding of `setMetricAggParams(params, query, durationSeconds,
intervalMs)`: the Go code first defaults the reducer/aligner on the query,
then appends the aggregation parameters to `params`. -/
def setMetricAggParams (params : Params) (query : MetricQuery)
    (durationSeconds : Nat) (intervalMs : Nat) : Params :=
  let reducer :=
    if query.crossSeriesReducer = "" then crossSeriesReducerDefault
    else query.crossSeriesReducer
  let aligner :=
    if query.perSeriesAligner = "" then perSeriesAlignerDefault
    else query.perSeriesAligner
  let alignmentPeriod :=
    calculateAlignmentPeriod query.alignmentPeriod intervalMs durationSeconds
  let params :=
    if query.preprocessorType ≠ PreprocessorType.none then
      let primaryCrossSeriesReducer :=
        if query.groupBys.length > 0 then reducer else crossSeriesReducerDefault
      let primaryAligner :=
        if query.preprocessorType = PreprocessorType.delta then "ALIGN_DELTA"
        else "ALIGN_RATE"
      params ++
        [("secondaryAggregation.alignmentPeriod", alignmentPeriod),
         ("secondaryAggregation.crossSeriesReducer", reducer),
         ("secondaryAggregation.perSeriesAligner", aligner),
         ("aggregation.crossSeriesReducer", primaryCrossSeriesReducer),
         ("aggregation.perSeriesAligner", primaryAligner)] ++
        query.groupBys.map (fun g => ("secondaryAggregation.groupByFields", g))
    else
      params ++
        [("aggregation.crossSeriesReducer", reducer),
         ("aggregation.perSeriesAligner", aligner)]
  params ++ [("aggregation.alignmentPeriod", alignmentPeriod)] ++
    query.groupBys.map (fun g => ("aggregation.groupByFields", g))

/-- Embedding of `buildSLOFilterExpression(q)`. -/
def buildSLOFilterExpression (q : SloQuery) : String :=
  q.selectorName ++ "(\"projects/" ++ q.projectName ++ "/services/" ++
    q.serviceId ++ "/serviceLevelObjectives/" ++ q.sloId ++ "\")"

/-- Embedding of `setSloAggParams(params, query, durationSeconds, intervalMs)`. -/
def setSloAggParams (params : Params) (query : SloQuery)
    (durationSeconds : Nat) (intervalMs : Nat) : Params :=
  let params := params ++
    [("aggregation.alignmentPeriod",
      calculateAlignmentPeriod query.alignmentPeriod intervalMs durationSeconds)]
  if query.selectorName = "select_slo_health" then
    params ++ [("aggregation.perSeriesAligner", "ALIGN_MEAN")]
  else
    params ++ [("aggregation.perSeriesAligner", "ALIGN_NEXT_OLDER")]

/-! ## formatLegendKeys -/

/-- The fields of the Go `cloudMonitoringTimeSeriesFilter` struct, as used
by this file. -/
structure CloudMonitoringTimeSeriesFilter where
  refID : String := ""
  target : String := ""
  params : Params := []
  aliasBy : String := ""
  groupBys : List String := []
  projectName : String := ""
  selector : String := ""
  service : String := ""
  slo : String := ""
deriving DecidableEq, Repr

/-- The whitespace characters of the RE2 class `\s` (tab, newline, form
feed, carriage return, space), used by the `\s*` parts of
`legendKeyFormat`. -/
def isWsRegex (c : Char) : Bool :=
  c = ' ' ∨ c = '\t' ∨ c = '\n' ∨ c = Char.ofNat 12 ∨ c = Char.ofNat 13

/-- ASCII whitespace trimmed by `strings.TrimSpace` (the Go function also
trims vertical tab and non-ASCII Unicode spaces, which do not occur in the
inputs of this plugin). -/
def isWsTrim (c : Char) : Bool := isWsRegex c ∨ c = Char.ofNat 11

/-- Trim whitespace from both ends (embedding of `strings.TrimSpace`). -/
def trimSpace (l : List Char) : List Char :=
  ((l.dropWhile isWsTrim).reverse.dropWhile isWsTrim).reverse

/-- Whether the text strictly between a `\x7b\x7b` and a candidate
`\x7d\x7d` can be matched by `\s*(.+?)\s*` of the regexp
`legendKeyFormat = \x7b\x7b\s*(.+?)\s*\x7d\x7d`: after trimming the
`\s*` ends, the mandatory `(.+?)` part must be non-empty and free of
newlines (`.` does not match a newline). -/
def gapOk (g : List Char) : Bool :=
  let t := ((g.dropWhile isWsRegex).reverse.dropWhile isWsRegex).reverse
  if t.isEmpty then g.any (fun c => c ≠ '\n') else t.all (fun c => c ≠ '\n')

/-- Scan for the earliest `\x7d\x7d` closing a placeholder whose gap is
matchable; returns the gap and the remainder after the closing braces.
`acc` holds the gap read so far, reversed. -/
def findCloseAux : List Char → List Char → Option (List Char × List Char)
  | _, [] => none
  | acc, a :: rest =>
    if a = rbrace ∧ rest.head? = some rbrace then
      if gapOk acc.reverse then some (acc.reverse, rest.tail)
      else findCloseAux (a :: acc) rest
    else findCloseAux (a :: acc) rest

/-- Embedding of `legendKeyFormat.ReplaceAllFunc`: replace every match of
`\x7b\x7b\s*(.+?)\s*\x7d\x7d` by `cb` applied to the whole match.  The
recursion is driven by a fuel argument (one unit per examined character);
`replaceLegendAll` supplies enough fuel. -/
def replaceLegendAux (cb : List Char → List Char) : Nat → List Char → List Char
  | 0, l => l
  | _ + 1, [] => []
  | _ + 1, [c] => [c]
  | fuel + 1, a :: b :: rest =>
    if a = lbrace ∧ b = lbrace then
      match findCloseAux [] rest with
      | some (gap, rest2) =>
        cb (a :: b :: (gap ++ [rbrace, rbrace])) ++ replaceLegendAux cb fuel rest2
      | none => a :: replaceLegendAux cb fuel (b :: rest)
    else a :: replaceLegendAux cb fuel (b :: rest)

/-- Replace every `legendKeyFormat` match in `l` by `cb` of the match. -/
def replaceLegendAll (cb : List Char → List Char) (l : List Char) : List Char :=
  replaceLegendAux cb l.length l

/-- A word character of the RE2 class `[\w\d_]` (`\w` is
`[0-9A-Za-z_]`). -/
def isWordChar (c : Char) : Bool := c.isAlphanum ∨ c = '_'

/-- Try to match `metricNameFormat = ([\w\d_]+)\.(googleapis\.com|io)/(.+)`
at the head of `l`; on success return (service part, name part). -/
def matchMetricNameAt (l : List Char) : Option (List Char × List Char) :=
  let w := l.takeWhile isWordChar
  if w.isEmpty then none
  else
    match l.drop w.length with
    | '.' :: r2 =>
      let tryDomain (dom : List Char) : Option (List Char × List Char) :=
        if dom.isPrefixOf r2 then
          match r2.drop dom.length with
          | '/' :: r3 =>
            let name := r3.takeWhile (fun c => c ≠ '\n')
            if name.isEmpty then none else some (w, name)
          | _ => none
        else none
      (tryDomain "googleapis.com".data).orElse (fun _ => tryDomain "io".data)
    | _ => none

/-- Leftmost match of `metricNameFormat` in the list. -/
def findMetricSubmatchAux : List Char → Option (List Char × List Char)
  | [] => none
  | l@(_ :: rest) =>
    match matchMetricNameAt l with
    | some r => some r
    | none => findMetricSubmatchAux rest

/-- Embedding of `metricNameFormat.FindStringSubmatch(metricType)`,
reduced to the two capture groups the code reads (service and name). -/
def findMetricSubmatch (metricType : String) : Option (List Char × List Char) :=
  findMetricSubmatchAux metricType.data

/-- Embedding of `replaceWithMetricPart(metaPartName, metricType)`:
`metric.name` resolves to the name capture and `metric.service` to the
service capture of `metricNameFormat`, `none` otherwise. -/
def replaceWithMetricPart (metaPartName : String) (metricType : String) :
    Option (List Char) :=
  match findMetricSubmatch metricType with
  | some (svc, name) =>
    if metaPartName = "metric.name" then some name
    else if metaPartName = "metric.service" then some svc
    else none
  | none => none

/-- The resolution chain of the `ReplaceAllFunc` callback in
`formatLegendKeys`, applied to the trimmed placeholder name
(`metaPartName`); `original` is the whole match, returned verbatim when
nothing resolves. -/
def resolveLegendPart (metricType : String) (labels additionalLabels : Params)
    (query : CloudMonitoringTimeSeriesFilter) (metaPartName : String)
    (original : List Char) : List Char :=
  if metaPartName = "metric.type" then metricType.data
  else
    match replaceWithMetricPart metaPartName metricType with
    | some metricPart => metricPart
    | none =>
      match labels.lookup metaPartName with
      | some val => val.data
      | none =>
        match additionalLabels.lookup metaPartName with
        | some val => val.data
        | none =>
          if metaPartName = "project" ∧ query.projectName ≠ "" then
            query.projectName.data
          else if metaPartName = "service" ∧ query.service ≠ "" then
            query.service.data
          else if metaPartName = "slo" ∧ query.slo ≠ "" then
            query.slo.data
          else if metaPartName = "selector" ∧ query.selector ≠ "" then
            query.selector.data
          else original

/-- The `ReplaceAllFunc` callback of `formatLegendKeys`: strip the first
`\x7b\x7b` and `\x7d\x7d` of the whole match, trim whitespace, and
resolve. -/
def legendCallback (metricType : String) (labels additionalLabels : Params)
    (query : CloudMonitoringTimeSeriesFilter) (inStr : List Char) : List Char :=
  let metaPartName :=
    trimSpace (removeFirstSub [rbrace, rbrace] (removeFirstSub [lbrace, lbrace] inStr))
  resolveLegendPart metricType labels additionalLabels query ⟨metaPartName⟩ inStr

/-- Embedding of `formatLegendKeys(metricType, defaultMetricName, labels,
additionalLabels, query)`. -/
def formatLegendKeys (metricType : String) (defaultMetricName : String)
    (labels additionalLabels : Params)
    (query : CloudMonitoringTimeSeriesFilter) : String :=
  if query.aliasBy = "" then defaultMetricName
  else
    ⟨replaceLegendAll (legendCallback metricType labels additionalLabels query)
      query.aliasBy.data⟩

/-! ## calcBucketBound -/

/-- Linear bucket options (struct fields as read by `calcBucketBound`). -/
structure LinearBuckets where
  numFiniteBuckets : Int := 0
  width : Int := 0
  offset : Int := 0
deriving DecidableEq, Repr

/-- Exponential bucket options; the Go `float64` fields are modelled as
rationals. -/
structure ExponentialBuckets where
  numFiniteBuckets : Int := 0
  growthFactor : ℚ := 0
  scale : ℚ := 0
deriving DecidableEq, Repr

/-- Explicit bucket options. -/
structure ExplicitBuckets where
  bounds : List ℚ := []
deriving DecidableEq, Repr

/-- The Go `cloudMonitoringBucketOptions` struct: three optional variants. -/
structure CloudMonitoringBucketOptions where
  linearBuckets : Option LinearBuckets := none
  exponentialBuckets : Option ExponentialBuckets := none
  explicitBuckets : Option ExplicitBuckets := none
deriving DecidableEq, Repr

/-- Go `int64(x)` conversion of a `float64`, truncation toward zero,
modelled on rationals. -/
def truncQ (q : ℚ) : Int := q.num.tdiv (q.den : Int)

/-- Rendering of a `float64` by `fmt.Sprintf("%g", x)`, modelled on
rationals: integers print without a decimal part (as `%g` does); a
non-integral value is shown as numerator/denominator (an abstraction of
the `%g` decimal form, not exercised by integral bounds). -/
def formatG (q : ℚ) : String :=
  if q.den = 1 then toString q.num
  else toString q.num ++ "/" ++ toString q.den

/-- Embedding of `calcBucketBound(bucketOptions, n)`.  The Go code indexes
`Bounds[n]` without a range guard; the out-of-range panic is modelled as
`none`. -/
def calcBucketBound (bucketOptions : CloudMonitoringBucketOptions) (n : Nat) :
    Option String :=
  if n = 0 then some "0"
  else
    match bucketOptions.linearBuckets with
    | some lb => some (toString (lb.offset + lb.width * (n - 1 : Nat)))
    | none =>
      match bucketOptions.exponentialBuckets with
      | some eb => some (toString (truncQ (eb.scale * eb.growthFactor ^ (n - 1))))
      | none =>
        match bucketOptions.explicitBuckets with
        | some eb =>
          match eb.bounds.get? n with
          | some bound => some (formatG bound)
          | none => none
        | none => some "0"

/-! ## addConfigData -/

/-- `data.DataLink` as used by `addConfigData`. -/
structure DataLink where
  title : String := ""
  targetBlank : Bool := false
  url : String := ""
deriving DecidableEq, Repr

/-- `data.FieldConfig` as used by `addConfigData` (`Unit` is the Go empty
string when unset). -/
structure FieldConfig where
  links : List DataLink := []
  unit : String := ""
deriving DecidableEq, Repr

/-- `data.Field` as used by `addConfigData` (only its config is touched). -/
structure Field where
  config : Option FieldConfig := none
deriving DecidableEq, Repr

/-- `data.Frame` as used by `addConfigData` (a list of fields; index 1 is
the value field). -/
structure Frame where
  fields : List Field := []
deriving DecidableEq, Repr

/-- The `cloudMonitoringUnitMappings` table. -/
def cloudMonitoringUnitMappings : List (String × String) :=
  [("bit", "bits"),
   ("By", "bytes"),
   ("s", "s"),
   ("min", "m"),
   ("h", "h"),
   ("d", "d"),
   ("us", "µs"),
   ("ms", "ms"),
   ("ns", "ns"),
   ("%", "percent"),
   ("percent", "percent"),
   ("MiBy", "mbytes"),
   ("By/s", "Bps"),
   ("GBy", "decgbytes")]

/-- The loop body of `addConfigData` for one frame.  The Go code writes to
`frames[i].Fields[1]`; a frame with fewer than two fields would panic,
modelled as `none`. -/
def addConfigFrame (dl : String) (unit : String) (frame : Frame) : Option Frame :=
  match frame.fields.get? 1 with
  | none => none
  | some fld =>
    let config := fld.config.getD {}
    let deepLink : DataLink :=
      { title := "View in Metrics Explorer", targetBlank := true, url := dl }
    let config := { config with links := config.links ++ [deepLink] }
    let config :=
      if unit.length > 0 then
        match cloudMonitoringUnitMappings.lookup unit with
        | some val => { config with unit := val }
        | none => config
      else config
    some { frame with fields := frame.fields.set 1 { fld with config := some config } }

/-- Embedding of `addConfigData(frames, dl, unit)`: the per-frame update
applied over the whole frame list. -/
def addConfigData (frames : List Frame) (dl : String) (unit : String) :
    Option (List Frame) :=
  frames.mapM (addConfigFrame dl unit)

/-! ## The dispatcher: buildQueryExecutors and executeTimeSeriesQuery -/

/-- The fields of `cloudMonitoringTimeSeriesQuery` (the MQL executor)
as set by `buildQueryExecutors`. -/
structure CloudMonitoringTimeSeriesQuery where
  refID : String := ""
  projectName : String := ""
  query : String := ""
  intervalMs : Nat := 0
  aliasBy : String := ""
  timeRangeFromSec : Nat := 0
  timeRangeToSec : Nat := 0
deriving DecidableEq, Repr

/-- The `cloudMonitoringQueryExecutor` interface: one of the two concrete
executor shapes built by `buildQueryExecutors`. -/
inductive CMQueryExecutor
  | filter (f : CloudMonitoringTimeSeriesFilter)
  | tsquery (q : CloudMonitoringTimeSeriesQuery)
deriving DecidableEq, Repr

/-- `getRefID` of an executor. -/
def CMQueryExecutor.getRefID : CMQueryExecutor → String
  | .filter f => f.refID
  | .tsquery q => q.refID

/-- The parsed JSON of one frontend query.  JSON decoding and the legacy
migration of `queryModel` are abstracted into the optional `json` field:
`none` models an unmarshal failure, `some g` the resulting
`grafanaQuery`. -/
structure GrafanaQuery where
  queryType : String := ""
  metricQuery : MetricQuery := {}
  sloQuery : SloQuery := {}
deriving DecidableEq, Repr

/-- `backend.DataQuery` as used by `buildQueryExecutors`: reference id,
decoded JSON model, interval (ms) and time range (unix seconds). -/
structure DataQuery where
  refID : String := ""
  json : Option GrafanaQuery := none
  intervalMs : Nat := 0
  timeFromSec : Nat := 0
  timeToSec : Nat := 0
deriving DecidableEq, Repr

/-- `backend.QueryDataRequest` as used by the dispatcher. -/
structure QueryDataRequest where
  queries : List DataQuery := []
deriving DecidableEq, Repr

/-- Embedding of `queryModel(query)`: JSON decoding (and the legacy
migration when the raw JSON has no `metricQuery` key) is abstracted into
`DataQuery.json`. -/
def queryModel (query : DataQuery) : Except String GrafanaQuery :=
  match query.json with
  | none => .error "could not unmarshal CloudMonitoringQuery json"
  | some q => .ok q

/-- RFC3339 rendering of the interval bounds; the exact text of the
timestamp is irrelevant to every claim and abstracted as the decimal of
the unix second. -/
def formatRFC3339 (sec : Nat) : String := toString sec

/-- Insertion into a key-sorted pair list (for `url.Values.Encode`, which
emits keys in sorted order). -/
def insertSorted (p : String × String) : List (String × String) → List (String × String)
  | [] => [p]
  | q :: rest => if p.1 ≤ q.1 then p :: q :: rest else q :: insertSorted p rest

/-- Embedding of `params.Encode()`: key-sorted `k=v` pairs joined by `&`
(percent-escaping of the values is not modelled; no claim reads the
encoded target). -/
def encodeParams (params : Params) : String :=
  String.intercalate "&"
    ((params.foldl (fun acc p => insertSorted p acc) []).map
      (fun p => p.1 ++ "=" ++ p.2))

/-- The body of the `buildQueryExecutors` loop for one query.
`startTime`/`endTime`/`durationSeconds` come from the first query of the
batch.  The `default` arm of the Go `switch` is a
`panic("Unrecognized query type ...")`, which aborts the whole batch with
no partial results; it is modelled as a batch-level error. -/
def buildOneExecutor (startTime endTime : Nat) (durationSeconds : Nat)
    (query : DataQuery) : Except String CMQueryExecutor := do
  let q ← queryModel query
  let mq := { q.metricQuery with
              preprocessorType := toPreprocessorType q.metricQuery.preprocessor }
  let params : Params :=
    [("interval.startTime", formatRFC3339 startTime),
     ("interval.endTime", formatRFC3339 endTime)]
  if q.queryType = "metrics" then
    if mq.editorMode = "mql" then
      .ok (.tsquery
        { refID := query.refID
          projectName := mq.projectName
          query := mq.query
          intervalMs := query.intervalMs
          aliasBy := mq.aliasBy
          timeRangeFromSec := startTime
          timeRangeToSec := endTime })
    else
      let view := if mq.view = "" then "FULL" else mq.view
      let params := params ++
        [("filter", buildFilterString mq.metricType mq.filters), ("view", view)]
      let params := setMetricAggParams params mq durationSeconds query.intervalMs
      .ok (.filter
        { refID := query.refID
          aliasBy := mq.aliasBy
          projectName := mq.projectName
          groupBys := mq.groupBys
          params := params
          target := encodeParams params })
  else if q.queryType = "slo" then
    let params := params ++ [("filter", buildSLOFilterExpression q.sloQuery)]
    let params := setSloAggParams params q.sloQuery durationSeconds query.intervalMs
    .ok (.filter
      { refID := query.refID
        aliasBy := q.sloQuery.aliasBy
        projectName := q.sloQuery.projectName
        selector := q.sloQuery.selectorName
        service := q.sloQuery.serviceId
        slo := q.sloQuery.sloId
        params := params
        target := encodeParams params })
  else
    .error ("Unrecognized query type " ++ q.queryType)

/-- The loop of `buildQueryExecutors` over the whole batch. -/
def buildExecutorsLoop (startTime endTime durationSeconds : Nat) :
    List DataQuery → Except String (List CMQueryExecutor)
  | [] => .ok []
  | query :: rest => do
    let ex ← buildOneExecutor startTime endTime durationSeconds query
    let tl ← buildExecutorsLoop startTime endTime durationSeconds rest
    .ok (ex :: tl)

/-- Embedding of `buildQueryExecutors(req)`.  The Go code reads
`req.Queries[0].TimeRange`, so an empty batch would panic (modelled as an
error; `QueryData` rejects empty batches before this point). -/
def buildQueryExecutors (req : QueryDataRequest) : Except String (List CMQueryExecutor) :=
  match req.queries with
  | [] => .error "query contains no queries"
  | first :: _ =>
    buildExecutorsLoop first.timeFromSec first.timeToSec
      (first.timeToSec - first.timeFromSec) req.queries

/-! ## unmarshalResponse and executeTimeSeriesQuery -/

/-- The response payload shape the parsers consume (series list). -/
structure CloudMonitoringResponse where
  timeSeries : List String := []
deriving DecidableEq, Repr, Inhabited

/-- An HTTP response from the remote API: status code, raw body, and the
outcome of `json.Unmarshal` on the body (JSON decoding abstracted as an
optional decoded value). -/
structure HttpResponse where
  statusCode : Nat := 200
  body : String := ""
  parsed : Option CloudMonitoringResponse := none
deriving DecidableEq, Repr

/-- Embedding of `unmarshalResponse(res)`: a non-2xx status or an
unparseable body yields an error, otherwise the decoded response. -/
def unmarshalResponse (res : HttpResponse) : Except String CloudMonitoringResponse :=
  if res.statusCode / 100 ≠ 2 then
    .error ("query failed: " ++ res.body)
  else
    match res.parsed with
    | none => .error "failed to unmarshal query response"
    | some data => .ok data

/-- `backend.DataResponse`: the per-query slot of the batch response. -/
structure DataResponse where
  frames : List Frame := []
  error : Option String := none
deriving DecidableEq, Repr

/-- The remote side of one batch execution: the HTTP response each
query's request receives, keyed by the query's reference id. -/
def RemoteOracle := String → HttpResponse

/-- Modelled from the spec: the `run` methods of the executors live in
files not under `src/`.  Per §4.3/§7, `run` issues the HTTP call and a
remote-call failure or unparseable body (the errors of
`unmarshalResponse`) is attached as a query-level error on that query's
`DataResponse`, with a nil top-level error, so siblings are unaffected.
Returns (query response, decoded payload, top-level error). -/
def runExecutor (oracle : RemoteOracle) (ex : CMQueryExecutor) :
    DataResponse × CloudMonitoringResponse × Option String :=
  match unmarshalResponse (oracle ex.getRefID) with
  | .error e => ({ frames := [], error := some e }, default, none)
  | .ok data => ({ frames := [], error := none }, data, none)

/-- Modelled from the spec: the `parseResponse` methods (not under `src/`)
convert the decoded series list into data frames; the conversion itself is
abstracted as one frame per series. -/
def parseResponseFrames (data : CloudMonitoringResponse) : List Frame :=
  data.timeSeries.map (fun _ => { fields := [{}, {}] })

/-- The loop of `executeTimeSeriesQuery`: run each executor, attach parse
errors to the query's slot, and key the slot by the executor's reference
id.  A non-nil top-level error from `run` aborts the batch (that branch is
dead under the spec-modelled `run`, which always returns a nil top-level
error). -/
def executeLoop (oracle : RemoteOracle) :
    List CMQueryExecutor → Except String (List (String × DataResponse))
  | [] => .ok []
  | ex :: rest =>
    let (queryRes, data, topErr) := runExecutor oracle ex
    match topErr with
    | some e => .error e
    | none =>
      let queryRes := { queryRes with frames := parseResponseFrames data }
      match executeLoop oracle rest with
      | .error e => .error e
      | .ok tl => .ok ((ex.getRefID, queryRes) :: tl)

/-- Embedding of `executeTimeSeriesQuery(ctx, req, dsInfo)`: build the
executors (a failure there is batch-fatal), then run each and collect the
slots keyed by reference id. -/
def executeTimeSeriesQuery (req : QueryDataRequest) (oracle : RemoteOracle) :
    Except String (List (String × DataResponse)) := do
  let executors ← buildQueryExecutors req
  executeLoop oracle executors

/-- Decidable equality for `Except`, so concrete batch outcomes can be
checked by evaluation. -/
instance instDecEqExcept {ε α : Type} [DecidableEq ε] [DecidableEq α] :
    DecidableEq (Except ε α)
  | Except.error a, Except.error b =>
    if h : a = b then isTrue (by subst h; rfl)
    else isFalse (fun hh => h (Except.error.inj hh))
  | Except.error _, Except.ok _ => isFalse (fun hh => Except.noConfusion hh)
  | Except.ok _, Except.error _ => isFalse (fun hh => Except.noConfusion hh)
  | Except.ok a, Except.ok b =>
    if h : a = b then isTrue (by subst h; rfl)
    else isFalse (fun hh => h (Except.ok.inj hh))

/-! ## Helper lemmas -/

theorem plusNumS_head (x : String) : (("+" ++ x) ++ "s").data.head? = some '+' := by
  cases x with
  | mk d => rfl

theorem plusNumS_ne (x : String) (u : String) (hu : u.data.head? ≠ some '+') :
    ("+" ++ x) ++ "s" ≠ u := by
  intro h
  exact hu (h ▸ plusNumS_head x)

/-- `calculateAlignmentPeriod` on the "grafana-auto" (or empty) sentinel. -/
theorem calculateAlignmentPeriod_auto (s : String)
    (hs : s = "grafana-auto" ∨ s = "") (i d : Nat) :
    calculateAlignmentPeriod s i d = "+" ++ toString (max (i / 1000) 60) ++ "s" := by
  unfold calculateAlignmentPeriod
  rw [if_pos hs, if_neg]
  rintro (h | h)
  · exact plusNumS_ne _ _ (by decide) h
  · exact plusNumS_ne _ _ (by decide) h

/-- `calculateAlignmentPeriod` on the legacy sentinels. -/
theorem calculateAlignmentPeriod_legacy (s : String)
    (hs : s = "cloud-monitoring-auto" ∨ s = "stackdriver-auto") (i d : Nat) :
    calculateAlignmentPeriod s i d =
      if max d 60 < 82800 then "+60s"
      else if max d 60 < 518400 then "+300s" else "+3600s" := by
  rcases hs with h | h <;> subst h <;> simp [calculateAlignmentPeriod]

/-- `calculateAlignmentPeriod` on any other specifier. -/
theorem calculateAlignmentPeriod_other (s : String)
    (h1 : s ≠ "grafana-auto") (h2 : s ≠ "")
    (h3 : s ≠ "cloud-monitoring-auto") (h4 : s ≠ "stackdriver-auto") (i d : Nat) :
    calculateAlignmentPeriod s i d = s := by
  unfold calculateAlignmentPeriod
  rw [if_neg (show ¬(s = "grafana-auto" ∨ s = "") by
    rintro (h | h) <;> [exact h1 h; exact h2 h])]
  rw [if_neg (show ¬(s = "cloud-monitoring-auto" ∨ s = "stackdriver-auto") by
    rintro (h | h) <;> [exact h3 h; exact h4 h])]

/-! ## Claim C5 -/

/-- C5 counterexample: the empty alignment-period specifier is neither the
"grafana-auto" sentinel nor a legacy sentinel, yet it is not returned
unchanged — it is treated like "grafana-auto". -/
theorem claim5_counterexample :
    ("" ≠ "grafana-auto" ∧ "" ≠ "stackdriver-auto" ∧ "" ≠ "cloud-monitoring-auto") ∧
    calculateAlignmentPeriod "" 15000 3600 = "+60s" ∧
    calculateAlignmentPeriod "" 15000 3600 ≠ "" := by
  refine ⟨by decide, ?_, ?_⟩ <;> rw [calculateAlignmentPeriod_auto "" (Or.inr rfl)] <;> decide

/-- C5 (amended): `calculateAlignmentPeriod` returns, for the
"grafana-auto" sentinel and likewise for the empty specifier, `+<n>s`
with `n = max(intervalMs/1000, 60)`; for the legacy sentinels
("stackdriver-auto" / "cloud-monitoring-auto"), with the duration floored
at 60 seconds, "+60s" below 23 hours, "+300s" below 6 days and "+3600s"
otherwise; any other non-empty specifier is returned unchanged; and
`calculateAlignmentPeriod("stackdriver-auto", 0, 90000) = "+300s"`,
`calculateAlignmentPeriod("grafana-auto", 15000, 3600) = "+60s"`. -/
theorem claim5_calculateAlignmentPeriod :
    (∀ i d, calculateAlignmentPeriod "grafana-auto" i d =
      "+" ++ toString (max (i / 1000) 60) ++ "s") ∧
    (∀ i d, calculateAlignmentPeriod "" i d =
      "+" ++ toString (max (i / 1000) 60) ++ "s") ∧
    (∀ s i d, s = "stackdriver-auto" ∨ s = "cloud-monitoring-auto" →
      calculateAlignmentPeriod s i d =
        (if max d 60 < 60 * 60 * 23 then "+60s"
         else if max d 60 < 60 * 60 * 24 * 6 then "+300s" else "+3600s")) ∧
    (∀ s i d, s ≠ "grafana-auto" → s ≠ "" →
      s ≠ "stackdriver-auto" → s ≠ "cloud-monitoring-auto" →
      calculateAlignmentPeriod s i d = s) ∧
    calculateAlignmentPeriod "stackdriver-auto" 0 90000 = "+300s" ∧
    calculateAlignmentPeriod "grafana-auto" 15000 3600 = "+60s" := by
  refine ⟨fun i d => calculateAlignmentPeriod_auto _ (Or.inl rfl) i d,
          fun i d => calculateAlignmentPeriod_auto _ (Or.inr rfl) i d,
          fun s i d hs => calculateAlignmentPeriod_legacy s hs.symm i d,
          fun s i d h1 h2 h3 h4 => calculateAlignmentPeriod_other s h1 h2 h4 h3 i d,
          ?_, ?_⟩
  · rw [calculateAlignmentPeriod_legacy _ (Or.inr rfl)]; decide
  · rw [calculateAlignmentPeriod_auto _ (Or.inl rfl)]; decide

/-- C5 witness: the amended theorem applied at concrete inputs. -/
theorem claim5_witness :
    calculateAlignmentPeriod "+37s" 5 7 = "+37s" ∧
    calculateAlignmentPeriod "cloud-monitoring-auto" 0 600000 = "+3600s" := by
  refine ⟨claim5_calculateAlignmentPeriod.2.2.2.1 "+37s" 5 7
      (by decide) (by decide) (by decide) (by decide), ?_⟩
  rw [claim5_calculateAlignmentPeriod.2.2.1 "cloud-monitoring-auto" 0 600000 (Or.inr rfl)]
  decide

/-! ## Claims C8 and C10 -/

/-- C8 counterexample: for exponential buckets with scale 1 and growth
factor 3/2, the bound at index 2 is scale × growthFactor¹ = 3/2, but the
code returns the string "1" — the float value is truncated to an `int64`
before formatting, so the claim's exact formula does not hold. -/
theorem claim8_counterexample :
    calcBucketBound
      { exponentialBuckets := some { growthFactor := 3 / 2, scale := 1 } } 2 =
      some "1" ∧
    (1 : ℚ) * (3 / 2 : ℚ) ^ (2 - 1) = 3 / 2 ∧ ((3 / 2 : ℚ) ≠ 1) := by
  refine ⟨?_, by norm_num, by norm_num⟩
  simp only [calcBucketBound]
  norm_num [truncQ]
  decide

/-- C8 (amended): `calcBucketBound` returns "0" at index 0 regardless of
bucket-option kind; for n > 0 it returns offset + width×(n−1) for linear
buckets, scale × growthFactor^(n−1) truncated toward zero to an integer
for exponential buckets, and the n-th explicit boundary value for
explicit buckets (provided n is in range); for linear buckets
\x7boffset:10, width:5\x7d at n=3 it returns "20". -/
theorem claim8_calcBucketBound :
    (∀ opts, calcBucketBound opts 0 = some "0") ∧
    (∀ opts lb n, opts.linearBuckets = some lb → 1 ≤ n →
      calcBucketBound opts n =
        some (toString (lb.offset + lb.width * ((n - 1 : Nat) : Int)))) ∧
    (∀ opts eb n, opts.linearBuckets = none → opts.exponentialBuckets = some eb →
      1 ≤ n →
      calcBucketBound opts n =
        some (toString (truncQ (eb.scale * eb.growthFactor ^ (n - 1))))) ∧
    (∀ opts eb n b, opts.linearBuckets = none → opts.exponentialBuckets = none →
      opts.explicitBuckets = some eb → 1 ≤ n → eb.bounds.get? n = some b →
      calcBucketBound opts n = some (formatG b)) ∧
    calcBucketBound { linearBuckets := some { width := 5, offset := 10 } } 3 =
      some "20" := by
  refine ⟨fun opts => by simp [calcBucketBound], ?_, ?_, ?_, by decide⟩
  · intro opts lb n h hn
    have hn' : ¬ n = 0 := by omega
    simp [calcBucketBound, h, hn']
  · intro opts eb n h1 h2 hn
    have hn' : ¬ n = 0 := by omega
    simp [calcBucketBound, h1, h2, hn']
  · intro opts eb n b h1 h2 h3 hn hb
    have hn' : ¬ n = 0 := by omega
    rw [List.get?_eq_getElem?] at hb
    simp [calcBucketBound, h1, h2, h3, hn', hb]

/-- C8 witness: the amended theorem applied at concrete inputs. -/
theorem claim8_witness :
    calcBucketBound { explicitBuckets := some { bounds := [0, 1, 2, 3] } } 0 =
      some "0" ∧
    calcBucketBound { linearBuckets := some { width := 5, offset := 10 } } 3 =
      some "20" ∧
    calcBucketBound
      { exponentialBuckets := some { growthFactor := 2, scale := 3 } } 3 =
      some "12" ∧
    calcBucketBound { explicitBuckets := some { bounds := [0, 1, 2, 3] } } 2 =
      some "2" := by
  refine ⟨claim8_calcBucketBound.1 _, ?_, ?_, ?_⟩
  · rw [claim8_calcBucketBound.2.1 _ { width := 5, offset := 10 } 3 rfl (by decide)]
    decide
  · rw [claim8_calcBucketBound.2.2.1 _ { growthFactor := 2, scale := 3 } 3 rfl rfl
      (by decide)]
    norm_num [truncQ]
    decide
  · rw [claim8_calcBucketBound.2.2.2.1 _ { bounds := [0, 1, 2, 3] } 2 2 rfl rfl rfl
      (by decide) (by norm_num)]
    norm_num [formatG]
    decide

/-- C10: the explicit-buckets branch of `calcBucketBound` indexes the
bounds sequence at position n with no range guard: for 1 ≤ n <
length(bounds) the call is total and returns the n-th boundary, while for
n ≥ length(bounds) the unguarded access is reached (a Go index-range
panic, modelled as `none`), so totality of that branch requires
n < length(bounds). -/
theorem claim10_calcBucketBound_explicit :
    (∀ opts eb n, opts.linearBuckets = none → opts.exponentialBuckets = none →
      opts.explicitBuckets = some eb → 1 ≤ n → (hn : n < eb.bounds.length) →
      calcBucketBound opts n = some (formatG (eb.bounds.get ⟨n, hn⟩))) ∧
    (∀ opts eb n, opts.linearBuckets = none → opts.exponentialBuckets = none →
      opts.explicitBuckets = some eb → 1 ≤ n → eb.bounds.length ≤ n →
      calcBucketBound opts n = none) := by
  constructor
  · intro opts eb n h1 h2 h3 hn1 hn2
    have hn' : ¬ n = 0 := by omega
    simp [calcBucketBound, h1, h2, h3, hn', List.getElem?_eq_getElem hn2]
  · intro opts eb n h1 h2 h3 hn1 hn2
    have hn' : ¬ n = 0 := by omega
    simp [calcBucketBound, h1, h2, h3, hn', List.getElem?_eq_none hn2]

/-- C10 witness: the theorem applied at concrete in-range and
out-of-range indices. -/
theorem claim10_witness :
    calcBucketBound { explicitBuckets := some { bounds := [0, 5, 7] } } 2 =
      some "7" ∧
    calcBucketBound { explicitBuckets := some { bounds := [0, 5, 7] } } 3 =
      none := by
  refine ⟨?_, claim10_calcBucketBound_explicit.2 _ { bounds := [0, 5, 7] } 3
    rfl rfl rfl (by decide) (by decide)⟩
  rw [claim10_calcBucketBound_explicit.1 _ { bounds := [0, 5, 7] } 2 rfl rfl rfl
    (by decide) (by decide)]
  norm_num [formatG]
  decide

/-! ## Claim C9 -/

/-- C9 counterexample: the unit mapping table has no entry "%%" (its
percent entry is keyed "%"), so a query-declared unit "%%" is left unset
instead of being translated to "percent" as the claim's table would
have it. -/
theorem claim9_counterexample :
    cloudMonitoringUnitMappings.lookup "%%" = none ∧
    cloudMonitoringUnitMappings.lookup "%" = some "percent" ∧
    addConfigData [{ fields := [{}, {}] }] "u" "%%" =
      some [{ fields := [{},
        { config := some {
            links := [{ title := "View in Metrics Explorer", targetBlank := true,
                        url := "u" }],
            unit := "" } }] }] := by
  decide

/-- C9 (amended): every frame's value field (index 1) receives a deep
link with fixed title "View in Metrics Explorer", the open-in-new-tab
flag, and the given URL, appended to its links; when the query declared a
non-empty unit present in the fixed mapping table (bit→bits, %→percent,
By/s→Bps, among others), the field's unit is set to the mapped name,
while a unit absent from the table leaves the unit unchanged (unset if it
was unset) rather than guessed; `addConfigData` applies this per-frame
update across the frame list. -/
theorem claim9_addConfigData :
    (∀ dl unit frame fld, frame.fields.get? 1 = some fld →
      addConfigFrame dl unit frame =
        some { frame with fields := frame.fields.set 1 { fld with config := some {
            links := (fld.config.getD {}).links ++
              [{ title := "View in Metrics Explorer", targetBlank := true,
                 url := dl }],
            unit :=
              if unit.length > 0 then
                match cloudMonitoringUnitMappings.lookup unit with
                | some val => val
                | none => (fld.config.getD {}).unit
              else (fld.config.getD {}).unit } } }) ∧
    (∀ frames dl unit,
      addConfigData frames dl unit = frames.mapM (addConfigFrame dl unit)) ∧
    cloudMonitoringUnitMappings.lookup "bit" = some "bits" ∧
    cloudMonitoringUnitMappings.lookup "%" = some "percent" ∧
    cloudMonitoringUnitMappings.lookup "By/s" = some "Bps" ∧
    cloudMonitoringUnitMappings.lookup "%%" = none := by
  refine ⟨?_, fun _ _ _ => rfl, by decide, by decide, by decide, by decide⟩
  intro dl unit frame fld h
  simp only [addConfigFrame, h]
  by_cases hu : unit.length > 0
  · simp only [if_pos hu]
    cases hlk : cloudMonitoringUnitMappings.lookup unit <;> simp [hlk]
  · simp [if_neg hu, hu]

/-- C9 witness: the amended theorem applied at a concrete frame and
unit. -/
theorem claim9_witness :
    addConfigFrame "u" "bit" { fields := [{}, {}] } =
      some { fields := [{},
        { config := some {
            links := [{ title := "View in Metrics Explorer", targetBlank := true,
                        url := "u" }],
            unit := "bits" } }] } := by
  rw [claim9_addConfigData.1 "u" "bit" { fields := [{}, {}] } {} rfl]
  decide

/-! ## Claim C3 -/

theorem lookupMapConst (k c : String) (h : (k == c) = false) (gs : List String) :
    (gs.map (fun g => (c, g))).lookup k = none := by
  induction gs with
  | nil => rfl
  | cons g rest ih => simp [List.lookup, h, ih]

theorem filterMapConstSelf (c : String) (gs : List String) :
    ((gs.map (fun g => (c, g))).filter (fun p => p.1 == c)) =
      gs.map (fun g => (c, g)) := by
  induction gs with
  | nil => rfl
  | cons g rest ih => simp [List.filter, ih]

theorem filterMapConstNone (k c : String) (h : (c == k) = false) (gs : List String) :
    ((gs.map (fun g => (c, g))).filter (fun p => p.1 == k)) = [] := by
  induction gs with
  | nil => rfl
  | cons g rest ih => simp [List.filter, h, ih]

/-- C3: for a metric query with preprocessor Rate or Delta,
`setMetricAggParams` forces the primary aligner to ALIGN_RATE / ALIGN_DELTA,
defaults the primary cross-series reducer unless group-by fields are
present (then the user's reducer), and carries the user's reducer, aligner
and group-by fields in the `secondaryAggregation.*` parameters; without a
preprocessor only the `aggregation.*` parameters are set, directly from
the user's selections.  Parameters are only appended: the function output
is the input parameter list followed by the added pairs. -/
theorem claim3_setMetricAggParams :
    (∀ params q ds i,
      setMetricAggParams params q ds i = params ++ setMetricAggParams [] q ds i) ∧
    (∀ q ds i, (q.preprocessorType = .rate ∨ q.preprocessorType = .delta) →
      q.crossSeriesReducer ≠ "" → q.perSeriesAligner ≠ "" →
      (setMetricAggParams [] q ds i).lookup "aggregation.perSeriesAligner" =
        some (if q.preprocessorType = .delta then "ALIGN_DELTA" else "ALIGN_RATE") ∧
      (setMetricAggParams [] q ds i).lookup "aggregation.crossSeriesReducer" =
        some (if q.groupBys.length > 0 then q.crossSeriesReducer
              else crossSeriesReducerDefault) ∧
      (setMetricAggParams [] q ds i).lookup "secondaryAggregation.crossSeriesReducer" =
        some q.crossSeriesReducer ∧
      (setMetricAggParams [] q ds i).lookup "secondaryAggregation.perSeriesAligner" =
        some q.perSeriesAligner ∧
      ((setMetricAggParams [] q ds i).filter
          (fun p => p.1 == "secondaryAggregation.groupByFields")).map Prod.snd =
        q.groupBys ∧
      ((setMetricAggParams [] q ds i).filter
          (fun p => p.1 == "aggregation.groupByFields")).map Prod.snd =
        q.groupBys) ∧
    (∀ q ds i, q.preprocessorType = .none →
      q.crossSeriesReducer ≠ "" → q.perSeriesAligner ≠ "" →
      setMetricAggParams [] q ds i =
        [("aggregation.crossSeriesReducer", q.crossSeriesReducer),
         ("aggregation.perSeriesAligner", q.perSeriesAligner),
         ("aggregation.alignmentPeriod",
           calculateAlignmentPeriod q.alignmentPeriod i ds)] ++
        q.groupBys.map (fun g => ("aggregation.groupByFields", g))) := by
  refine ⟨?_, ?_, ?_⟩
  · intro params q ds i
    unfold setMetricAggParams
    by_cases hp : q.preprocessorType ≠ PreprocessorType.none <;>
      simp [hp, List.append_assoc]
  · intro q ds i hp hr ha
    have hne : q.preprocessorType ≠ PreprocessorType.none := by
      rcases hp with h | h <;> simp [h]
    unfold setMetricAggParams
    simp only [if_pos hne, if_neg hr, if_neg ha, List.nil_append, if_neg hne]
    refine ⟨?_, ?_, ?_, ?_, ?_, ?_⟩ <;>
      simp [List.lookup, List.filter, filterMapConstSelf, filterMapConstNone,
        lookupMapConst, List.map_map, Function.comp]
  · intro q ds i hp hr ha
    unfold setMetricAggParams
    simp [hp, if_neg hr, if_neg ha]

/-- C3 witness: the theorem applied at concrete queries with and without a
preprocessor. -/
theorem claim3_witness :
    (setMetricAggParams []
      { crossSeriesReducer := "REDUCE_SUM", perSeriesAligner := "ALIGN_MAX",
        preprocessorType := .delta } 3600 15000).lookup
      "aggregation.perSeriesAligner" = some "ALIGN_DELTA" ∧
    (setMetricAggParams []
      { crossSeriesReducer := "REDUCE_SUM", perSeriesAligner := "ALIGN_MAX",
        preprocessorType := .delta } 3600 15000).lookup
      "secondaryAggregation.crossSeriesReducer" = some "REDUCE_SUM" ∧
    setMetricAggParams []
      { crossSeriesReducer := "REDUCE_SUM", perSeriesAligner := "ALIGN_MAX",
        groupBys := ["zone"] } 3600 15000 =
      [("aggregation.crossSeriesReducer", "REDUCE_SUM"),
       ("aggregation.perSeriesAligner", "ALIGN_MAX"),
       ("aggregation.alignmentPeriod", "+60s"),
       ("aggregation.groupByFields", "zone")] := by
  refine ⟨(claim3_setMetricAggParams.2.1 _ 3600 15000 (Or.inr rfl)
      (by decide) (by decide)).1,
    (claim3_setMetricAggParams.2.1 _ 3600 15000 (Or.inr rfl)
      (by decide) (by decide)).2.2.1, ?_⟩
  rw [claim3_setMetricAggParams.2.2 _ 3600 15000 rfl (by decide) (by decide)]
  rw [calculateAlignmentPeriod_auto "" (Or.inr rfl)]
  decide

/-! ## Claim C6 -/

theorem dropWhileSpace_eq_self (l : List Char) (c : Char) (h : l.head? = some c)
    (hc : ¬ c = ' ') : l.dropWhile (· = ' ') = l := by
  cases l with
  | nil => rfl
  | cons a rest =>
    simp only [List.head?_cons, Option.some.injEq] at h
    subst h
    simp [List.dropWhile, hc]

theorem rtrimSpace_append (p t : List Char) (c : Char) (h : p.getLast? = some c)
    (hc : ¬ c = ' ') :
    ((p ++ t).reverse.dropWhile (· = ' ')).reverse =
      p ++ (t.reverse.dropWhile (· = ' ')).reverse := by
  rw [List.reverse_append, List.dropWhile_append]
  have hpr : p.reverse.dropWhile (· = ' ') = p.reverse :=
    dropWhileSpace_eq_self _ c (by rw [List.head?_reverse]; exact h) hc
  split
  case isTrue ht =>
    rw [hpr, List.reverse_reverse]
    have hte : t.reverse.dropWhile (· = ' ') = [] := by
      rwa [List.isEmpty_iff] at ht
    rw [hte]
    simp
  case isFalse ht =>
    rw [List.reverse_append, List.reverse_reverse]

theorem trimSpaceEnds_append (p t : List Char) (c1 c2 : Char)
    (h1 : p.head? = some c1) (hc1 : ¬ c1 = ' ')
    (h2 : p.getLast? = some c2) (hc2 : ¬ c2 = ' ') :
    trimSpaceEnds (p ++ t) = p ++ (t.reverse.dropWhile (· = ' ')).reverse := by
  unfold trimSpaceEnds
  have hh : (p ++ t).head? = some c1 := by
    cases p with
    | nil => simp at h1
    | cons a r => simpa using h1
  rw [dropWhileSpace_eq_self _ c1 hh hc1]
  exact rtrimSpace_append p t c2 h2 hc2

theorem trimSpaceEnds_eq_self (p : List Char) (c1 c2 : Char)
    (h1 : p.head? = some c1) (hc1 : ¬ c1 = ' ')
    (h2 : p.getLast? = some c2) (hc2 : ¬ c2 = ' ') :
    trimSpaceEnds p = p := by
  have h := trimSpaceEnds_append p [] c1 c2 h1 hc1 h2 hc2
  simpa using h

/-- C6 counterexample: the filter value "AND" (a literal with no
wildcards) is consumed by the connector case of the loop, so it is
rendered as a space, not as the exact-match quoted clause `"AND"` — the
output contains no `A` at all. -/
theorem claim6_counterexample :
    buildFilterString "mt" ["key", "=", "AND"] = "metric.type=\"mt\" key=" ∧
    'A' ∉ (buildFilterString "mt" ["key", "=", "AND"]).data := by
  decide

/-- C6 (amended): every `buildFilterString` output begins with the clause
`metric.type="<metricType>"`; the empty filter list yields exactly that
clause; and a filter value that is a literal string with no wildcards
**and is not the literal connector token "AND"** is rendered as an
exact-match double-quoted clause. -/
theorem claim6_buildFilterString :
    (∀ mt parts, ∃ t, (buildFilterString mt parts).data =
      ("metric.type=\"" ++ mt ++ "\"").data ++ t) ∧
    (∀ mt, buildFilterString mt [] = "metric.type=\"" ++ mt ++ "\"") ∧
    (∀ mt key op val, key ≠ "AND" → op ≠ "AND" → op ≠ "=~" → op ≠ "!=~" →
      val ≠ "AND" → ¬ val.data.contains '*' →
      buildFilterString mt [key, op, val] =
        "metric.type=\"" ++ mt ++ "\" " ++ key ++ op ++ "\"" ++ val ++ "\"") := by
  have hhead : ∀ mt : String, ("metric.type=\"" ++ mt ++ "\"").data.head? = some 'm' := by
    intro mt; cases mt with | mk d => rfl
  have hlast : ∀ mt : String, ("metric.type=\"" ++ mt ++ "\"").data.getLast? = some '"' := by
    intro mt
    have h : ("metric.type=\"" ++ mt ++ "\"").data =
        ("metric.type=\"".data ++ mt.data) ++ ['"'] := by
      simp [String.data_append]
    rw [h, List.getLast?_concat]
  refine ⟨?_, ?_, ?_⟩
  · intro mt parts
    refine ⟨((' ' :: (buildFilterLoop parts 0 "" "").data).reverse.dropWhile
      (· = ' ')).reverse, ?_⟩
    show trimSpaceEnds ("metric.type=\"" ++ mt ++ "\" " ++
      buildFilterLoop parts 0 "" "").data = _
    have hdata : ("metric.type=\"" ++ mt ++ "\" " ++
        buildFilterLoop parts 0 "" "").data =
        ("metric.type=\"" ++ mt ++ "\"").data ++
          (' ' :: (buildFilterLoop parts 0 "" "").data) := by
      simp [String.data_append]
    rw [hdata, trimSpaceEnds_append _ _ 'm' '"' (hhead mt) (by decide)
      (hlast mt) (by decide)]
  · intro mt
    show (⟨trimSpaceEnds ("metric.type=\"" ++ mt ++ "\" " ++
      buildFilterLoop [] 0 "" "").data⟩ : String) = _
    have hdata : ("metric.type=\"" ++ mt ++ "\" " ++
        buildFilterLoop [] 0 "" "").data =
        ("metric.type=\"" ++ mt ++ "\"").data ++ [' '] := by
      simp [String.data_append, buildFilterLoop]
    rw [hdata, trimSpaceEnds_append _ _ 'm' '"' (hhead mt) (by decide)
      (hlast mt) (by decide)]
    apply String.ext
    simp [String.data_append, List.dropWhile]
  · intro mt key op val hk ho1 ho2 ho3 hv hstar
    have hstar2 : '*' ∉ val.data := by simpa using hstar
    have hfs : buildFilterLoop [key, op, val] 0 "" "" =
        ((("" ++ key) ++ op) ++ "\"" ++ val ++ "\"") := by
      simp [buildFilterLoop, buildFilterStep, hk, ho1, ho2, ho3, hv, hstar2]
    show (⟨trimSpaceEnds ("metric.type=\"" ++ mt ++ "\" " ++
      buildFilterLoop [key, op, val] 0 "" "").data⟩ : String) = _
    rw [hfs]
    have hdata : ("metric.type=\"" ++ mt ++ "\" " ++
        ((("" ++ key) ++ op) ++ "\"" ++ val ++ "\"")).data =
        ("metric.type=\"" ++ mt ++ "\" " ++ key ++ op ++ "\"" ++ val ++ "\"").data := by
      simp [String.data_append]
    rw [hdata]
    have hL : ("metric.type=\"" ++ mt ++ "\" " ++ key ++ op ++ "\"" ++ val ++
        "\"").data.getLast? = some '"' := by
      have h : ("metric.type=\"" ++ mt ++ "\" " ++ key ++ op ++ "\"" ++ val ++
          "\"").data =
          ("metric.type=\"" ++ mt ++ "\" " ++ key ++ op ++ "\"" ++ val).data ++
            ['"'] := by
        simp [String.data_append]
      rw [h, List.getLast?_concat]
    have hH : ("metric.type=\"" ++ mt ++ "\" " ++ key ++ op ++ "\"" ++ val ++
        "\"").data.head? = some 'm' := by
      cases mt with | mk d =>
      cases key with | mk e =>
      cases op with | mk f =>
      cases val with | mk g => rfl
    rw [trimSpaceEnds_eq_self _ 'm' '"' hH (by decide) hL (by decide)]

/-- C6 witness: the amended theorem applied at concrete inputs. -/
theorem claim6_witness :
    buildFilterString "compute" [] = "metric.type=\"compute\"" ∧
    buildFilterString "compute" ["zone", "=", "us-east1"] =
      "metric.type=\"compute\" zone=\"us-east1\"" := by
  refine ⟨claim6_buildFilterString.2.1 "compute", ?_⟩
  rw [claim6_buildFilterString.2.2 "compute" "zone" "=" "us-east1"
    (by decide) (by decide) (by decide) (by decide) (by decide) (by decide)]
  decide

/-! ## Claim C4 -/

theorem removeFirst_of_head (l : List Char) (c : Char) (h : hasPre [c] l = true) :
    removeFirstChar c l = l.tail := by
  cases l with
  | nil => simp [hasPre, List.isPrefixOf] at h
  | cons a t =>
    simp [hasPre, List.isPrefixOf] at h
    simp [removeFirstChar, h]

theorem reverse_tail_reverse_eq_dropLast (l : List Char) :
    l.reverse.tail.reverse = l.dropLast := by
  induction l using List.reverseRecOn with
  | nil => rfl
  | append_singleton l a ih => simp

theorem removeFirst_rev_of_last (l : List Char) (c : Char)
    (h : hasSuf [c] l = true) :
    (removeFirstChar c l.reverse).reverse = l.dropLast := by
  have h2 : hasPre [c] l.reverse = true := h
  rw [removeFirst_of_head _ _ h2, reverse_tail_reverse_eq_dropLast]

theorem buildFilterString_eq_of_loop (mt : String) (parts : List String) (E : String)
    (hfs : ("metric.type=\"" ++ mt ++ "\" " ++ buildFilterLoop parts 0 "" "").data =
      E.data)
    (hH : E.data.head? = some 'm')
    (hL : ∃ c, E.data.getLast? = some c ∧ ¬ c = ' ') :
    buildFilterString mt parts = E := by
  show (⟨trimSpaceEnds ("metric.type=\"" ++ mt ++ "\" " ++
    buildFilterLoop parts 0 "" "").data⟩ : String) = E
  rw [hfs]
  obtain ⟨c, hc, hcs⟩ := hL
  rw [trimSpaceEnds_eq_self _ 'm' c hH (by decide) hc hcs]

theorem append_close_last (x : String) : (x ++ "\")").data.getLast? = some ')' := by
  cases x with | mk d =>
  have h : ((⟨d⟩ : String) ++ "\")").data = (d ++ ['"']) ++ [')'] := by
    show d ++ ['"', ')'] = (d ++ ['"']) ++ [')']
    simp
  rw [h, List.getLast?_concat]

/-- C4: the wildcard interpolation of filter values — a value whose only
wildcards are one asterisk at each end becomes a `has_substring` predicate
with the asterisks stripped; exactly one leading asterisk becomes
`ends_with`; exactly one trailing asterisk (checked after the leading
case) becomes `starts_with`; any other asterisk placement becomes a
`monitoring.regex.full_match` predicate whose body escapes the regex
metacharacter class and turns each asterisk into `.*`; and for the
operators `=~` / `!=~` the value is always wrapped in a regex full-match
predicate with the operator's trailing `~` stripped from the emitted
filter string. -/
theorem claim4_interpolateFilterWildcards :
    (∀ v : String, countChar '*' v.data = 2 → hasSuf ['*'] v.data = true →
      hasPre ['*'] v.data = true →
      interpolateFilterWildcards v =
        "has_substring(\"" ++ ⟨v.data.filter (· ≠ '*')⟩ ++ "\")") ∧
    (∀ v : String, countChar '*' v.data = 1 → hasPre ['*'] v.data = true →
      interpolateFilterWildcards v = "ends_with(\"" ++ ⟨v.data.tail⟩ ++ "\")") ∧
    (∀ v : String, countChar '*' v.data = 1 → ¬ hasPre ['*'] v.data = true →
      hasSuf ['*'] v.data = true →
      interpolateFilterWildcards v =
        "starts_with(\"" ++ ⟨v.data.dropLast⟩ ++ "\")") ∧
    (∀ v : String, countChar '*' v.data ≠ 0 →
      ¬ (countChar '*' v.data = 2 ∧ hasSuf ['*'] v.data ∧ hasPre ['*'] v.data) →
      ¬ (countChar '*' v.data = 1 ∧ hasPre ['*'] v.data) →
      ¬ (countChar '*' v.data = 1 ∧ hasSuf ['*'] v.data) →
      interpolateFilterWildcards v =
        "monitoring.regex.full_match(\"^" ++ ⟨wildcardRegexBody v.data⟩ ++ "$\")") ∧
    (∀ mt key val : String, key ≠ "AND" → val ≠ "AND" →
      buildFilterString mt [key, "=~", val] =
        "metric.type=\"" ++ mt ++ "\" " ++ ⟨key.data ++ ['=']⟩ ++
          "monitoring.regex.full_match(\"" ++ val ++ "\")") ∧
    (∀ mt key val : String, key ≠ "AND" → val ≠ "AND" →
      buildFilterString mt [key, "!=~", val] =
        "metric.type=\"" ++ mt ++ "\" " ++ ⟨key.data ++ ['!', '=']⟩ ++
          "monitoring.regex.full_match(\"" ++ val ++ "\")") := by
  refine ⟨?_, ?_, ?_, ?_, ?_, ?_⟩
  · intro v h1 h2 h3
    simp only [interpolateFilterWildcards]
    rw [if_pos ⟨h1, h2, h3⟩]
  · intro v h1 h2
    simp only [interpolateFilterWildcards]
    rw [if_neg (by rintro ⟨hc, -, -⟩; omega), if_pos ⟨h1, h2⟩,
      removeFirst_of_head _ _ h2]
  · intro v h1 h2 h3
    simp only [interpolateFilterWildcards]
    rw [if_neg (by rintro ⟨hc, -, -⟩; omega),
      if_neg (by rintro ⟨-, hp⟩; exact h2 hp), if_pos ⟨h1, h3⟩,
      removeFirst_rev_of_last _ _ h3]
  · intro v h0 h1 h2 h3
    simp only [interpolateFilterWildcards]
    rw [if_neg h1, if_neg h2, if_neg h3, if_pos h0]
  · intro mt key val hk hv
    have hfs : buildFilterLoop [key, "=~", val] 0 "" "" =
        ⟨(removeFirstChar '~' (("" ++ key) ++ "=~").data.reverse).reverse⟩ ++
          ("monitoring.regex.full_match(\"" ++ val ++ "\")") := by
      simp [buildFilterLoop, buildFilterStep, hk, hv]
    have hrm : (removeFirstChar '~' (("" ++ key) ++ "=~").data.reverse).reverse =
        key.data ++ ['='] := by
      have h1 : (("" ++ key) ++ "=~").data.reverse = '~' :: '=' :: key.data.reverse := by
        simp [String.data_append]
      rw [h1]
      simp [removeFirstChar]
    apply buildFilterString_eq_of_loop
    · rw [hfs, hrm]
      simp [String.data_append]
    · cases mt with | mk d =>
      cases key with | mk e =>
      cases val with | mk f => rfl
    · exact ⟨')', append_close_last _, by decide⟩
  · intro mt key val hk hv
    have hfs : buildFilterLoop [key, "!=~", val] 0 "" "" =
        ⟨(removeFirstChar '~' (("" ++ key) ++ "!=~").data.reverse).reverse⟩ ++
          ("monitoring.regex.full_match(\"" ++ val ++ "\")") := by
      simp [buildFilterLoop, buildFilterStep, hk, hv]
    have hrm : (removeFirstChar '~' (("" ++ key) ++ "!=~").data.reverse).reverse =
        key.data ++ ['!', '='] := by
      have h1 : (("" ++ key) ++ "!=~").data.reverse =
          '~' :: '=' :: '!' :: key.data.reverse := by
        simp [String.data_append]
      rw [h1]
      simp [removeFirstChar]
    apply buildFilterString_eq_of_loop
    · rw [hfs, hrm]
      simp [String.data_append]
    · cases mt with | mk d =>
      cases key with | mk e =>
      cases val with | mk f => rfl
    · exact ⟨')', append_close_last _, by decide⟩

/-- C4 witness: each wildcard case and both regex operators at concrete
values. -/
theorem claim4_witness :
    interpolateFilterWildcards "*foo*" = "has_substring(\"foo\")" ∧
    interpolateFilterWildcards "*foo" = "ends_with(\"foo\")" ∧
    interpolateFilterWildcards "foo*" = "starts_with(\"foo\")" ∧
    interpolateFilterWildcards "f*o.o" =
      "monitoring.regex.full_match(\"^f.*o\\\\.o$\")" ∧
    buildFilterString "mt" ["key", "=~", "val.*"] =
      "metric.type=\"mt\" key=monitoring.regex.full_match(\"val.*\")" ∧
    buildFilterString "mt" ["key", "!=~", "val"] =
      "metric.type=\"mt\" key!=monitoring.regex.full_match(\"val\")" := by
  refine ⟨?_, ?_, ?_, ?_, ?_, ?_⟩
  · rw [claim4_interpolateFilterWildcards.1 "*foo*" (by decide) (by decide) (by decide)]
    decide
  · rw [claim4_interpolateFilterWildcards.2.1 "*foo" (by decide) (by decide)]
    decide
  · rw [claim4_interpolateFilterWildcards.2.2.1 "foo*" (by decide) (by decide)
      (by decide)]
    decide
  · rw [claim4_interpolateFilterWildcards.2.2.2.1 "f*o.o" (by decide) (by decide)
      (by decide) (by decide)]
    decide
  · rw [claim4_interpolateFilterWildcards.2.2.2.2.1 "mt" "key" "val.*"
      (by decide) (by decide)]
    decide
  · rw [claim4_interpolateFilterWildcards.2.2.2.2.2 "mt" "key" "val"
      (by decide) (by decide)]
    decide

/-! ## Claim C7 -/

theorem replaceWithMetricPart_other (name mt : String) (h1 : name ≠ "metric.name")
    (h2 : name ≠ "metric.service") : replaceWithMetricPart name mt = none := by
  unfold replaceWithMetricPart
  cases findMetricSubmatch mt with
  | none => rfl
  | some p =>
    cases p with | mk svc nm => simp [h1, h2]

/-- C7: `formatLegendKeys` with no alias template returns the default
metric name unchanged; the placeholder resolver substitutes, in priority
order, `metric.type` (the full metric type), `metric.name` /
`metric.service` (parsed from the metric type via the
`<service>.googleapis.com-or-io/<name>` convention), then the primary
label map, then the additional-label map, then the contextual names
project/service/slo/selector from the query; an unresolved placeholder is
left verbatim; and the concrete example
`formatLegendKeys("custom.googleapis.com/my_metric", ...)` with alias
`"\x7b\x7bmetric.name\x7d\x7d on \x7b\x7binstance\x7d\x7d"` yields
`"my_metric on a"`. -/
theorem claim7_formatLegendKeys :
    (∀ mt dn labels addl q, q.aliasBy = "" →
      formatLegendKeys mt dn labels addl q = dn) ∧
    (∀ mt labels addl q orig,
      resolveLegendPart mt labels addl q "metric.type" orig = mt.data) ∧
    (∀ mt svc nm, findMetricSubmatch mt = some (svc, nm) →
      replaceWithMetricPart "metric.name" mt = some nm ∧
      replaceWithMetricPart "metric.service" mt = some svc) ∧
    (∀ mt labels addl q name part orig, name ≠ "metric.type" →
      replaceWithMetricPart name mt = some part →
      resolveLegendPart mt labels addl q name orig = part) ∧
    (∀ mt labels addl q name v orig, name ≠ "metric.type" →
      replaceWithMetricPart name mt = none →
      labels.lookup name = some v →
      resolveLegendPart mt labels addl q name orig = v.data) ∧
    (∀ mt labels addl q name v orig, name ≠ "metric.type" →
      replaceWithMetricPart name mt = none →
      labels.lookup name = none → addl.lookup name = some v →
      resolveLegendPart mt labels addl q name orig = v.data) ∧
    (∀ mt labels addl q orig, labels.lookup "project" = none →
      addl.lookup "project" = none → q.projectName ≠ "" →
      resolveLegendPart mt labels addl q "project" orig = q.projectName.data) ∧
    (∀ mt labels addl q orig, labels.lookup "service" = none →
      addl.lookup "service" = none → q.service ≠ "" →
      resolveLegendPart mt labels addl q "service" orig = q.service.data) ∧
    (∀ mt labels addl q orig, labels.lookup "slo" = none →
      addl.lookup "slo" = none → q.slo ≠ "" →
      resolveLegendPart mt labels addl q "slo" orig = q.slo.data) ∧
    (∀ mt labels addl q orig, labels.lookup "selector" = none →
      addl.lookup "selector" = none → q.selector ≠ "" →
      resolveLegendPart mt labels addl q "selector" orig = q.selector.data) ∧
    (∀ mt labels addl q name orig, name ≠ "metric.type" →
      replaceWithMetricPart name mt = none →
      labels.lookup name = none → addl.lookup name = none →
      name ≠ "project" → name ≠ "service" → name ≠ "slo" → name ≠ "selector" →
      resolveLegendPart mt labels addl q name orig = orig) ∧
    formatLegendKeys "custom.googleapis.com/my_metric" "default"
      [("instance", "a")] []
      { aliasBy := "\x7b\x7bmetric.name\x7d\x7d on \x7b\x7binstance\x7d\x7d" } =
      "my_metric on a" := by
  refine ⟨?_, ?_, ?_, ?_, ?_, ?_, ?_, ?_, ?_, ?_, ?_, by decide⟩
  · intro mt dn labels addl q h
    simp [formatLegendKeys, h]
  · intro mt labels addl q orig
    simp [resolveLegendPart]
  · intro mt svc nm h
    constructor <;> simp [replaceWithMetricPart, h]
  · intro mt labels addl q name part orig h1 h2
    simp [resolveLegendPart, h1, h2]
  · intro mt labels addl q name v orig h1 h2 h3
    simp [resolveLegendPart, h1, h2, h3]
  · intro mt labels addl q name v orig h1 h2 h3 h4
    simp [resolveLegendPart, h1, h2, h3, h4]
  · intro mt labels addl q orig h1 h2 h3
    simp [resolveLegendPart, replaceWithMetricPart_other "project" mt
      (by decide) (by decide), h1, h2, h3]
  · intro mt labels addl q orig h1 h2 h3
    simp [resolveLegendPart, replaceWithMetricPart_other "service" mt
      (by decide) (by decide), h1, h2, h3]
  · intro mt labels addl q orig h1 h2 h3
    simp [resolveLegendPart, replaceWithMetricPart_other "slo" mt
      (by decide) (by decide), h1, h2, h3]
  · intro mt labels addl q orig h1 h2 h3
    simp [resolveLegendPart, replaceWithMetricPart_other "selector" mt
      (by decide) (by decide), h1, h2, h3]
  · intro mt labels addl q name orig h1 h2 h3 h4 h5 h6 h7 h8
    simp [resolveLegendPart, h1, h2, h3, h4, h5, h6, h7, h8]

/-- C7 witness: the resolver conjuncts applied at concrete inputs. -/
theorem claim7_witness :
    formatLegendKeys "m" "default" [] [] { aliasBy := "" } = "default" ∧
    resolveLegendPart "custom.googleapis.com/my_metric" [] [] {} "metric.name"
      ['z'] = "my_metric".data ∧
    resolveLegendPart "m" [] [] { projectName := "p1" } "project" ['z'] =
      "p1".data ∧
    resolveLegendPart "m" [("instance", "a")] [] {} "instance" ['z'] =
      "a".data ∧
    resolveLegendPart "m" [] [] {} "unknown" ['z'] = ['z'] := by
  refine ⟨claim7_formatLegendKeys.1 "m" "default" [] [] _ rfl,
    claim7_formatLegendKeys.2.2.2.1 _ [] [] {} "metric.name" _ ['z']
      (by decide) (by decide),
    claim7_formatLegendKeys.2.2.2.2.2.2.1 "m" [] [] { projectName := "p1" } ['z']
      rfl rfl (by decide),
    claim7_formatLegendKeys.2.2.2.2.1 "m" [("instance", "a")] [] {} "instance"
      "a" ['z'] (by decide) (replaceWithMetricPart_other _ _ (by decide) (by decide))
      (by decide),
    claim7_formatLegendKeys.2.2.2.2.2.2.2.2.2.2.1 "m" [] [] {} "unknown" ['z']
      (by decide) (replaceWithMetricPart_other _ _ (by decide) (by decide))
      rfl rfl (by decide) (by decide) (by decide) (by decide)⟩

/-! ## Claims C1 and C2 -/

/-- The per-query slot produced by one executor under a given remote
oracle: an error slot exactly when the remote response fails
`unmarshalResponse`, the parsed frames otherwise. -/
def slotOf (oracle : RemoteOracle) (ex : CMQueryExecutor) : String × DataResponse :=
  (ex.getRefID,
    match unmarshalResponse (oracle ex.getRefID) with
    | Except.error e => { frames := [], error := some e }
    | Except.ok data => { frames := parseResponseFrames data, error := none })

theorem default_cloudMonitoringResponse :
    (default : CloudMonitoringResponse) = { timeSeries := [] } := rfl

theorem executeLoop_eq_map (oracle : RemoteOracle) (execs : List CMQueryExecutor) :
    executeLoop oracle execs = Except.ok (execs.map (slotOf oracle)) := by
  induction execs with
  | nil => rfl
  | cons ex rest ih =>
    cases h : unmarshalResponse (oracle ex.getRefID) with
    | error e =>
      simp [executeLoop, runExecutor, h, ih, slotOf, parseResponseFrames,
        default_cloudMonitoringResponse]
    | ok data => simp [executeLoop, runExecutor, h, ih, slotOf]

theorem buildExecutorsLoop_error (st et ds : Nat) (qs : List DataQuery)
    (query : DataQuery) (g : GrafanaQuery) (hmem : query ∈ qs)
    (hjson : query.json = some g) (h1 : g.queryType ≠ "metrics")
    (h2 : g.queryType ≠ "slo") :
    ∃ e, buildExecutorsLoop st et ds qs = Except.error e := by
  induction qs with
  | nil => cases hmem
  | cons hd tl ih =>
    rcases List.mem_cons.mp hmem with heq | hmem2
    · subst heq
      have hone : buildOneExecutor st et ds query =
          Except.error ("Unrecognized query type " ++ g.queryType) := by
        unfold buildOneExecutor queryModel
        rw [hjson]
        simp [bind, Except.bind, h1, h2]
      exact ⟨_, by unfold buildExecutorsLoop; rw [hone]; rfl⟩
    · cases hone : buildOneExecutor st et ds hd with
      | error e => exact ⟨e, by unfold buildExecutorsLoop; rw [hone]; rfl⟩
      | ok ex =>
        obtain ⟨e, he⟩ := ih hmem2
        exact ⟨e, by unfold buildExecutorsLoop; rw [hone, he]; rfl⟩

/-- C2: a batch containing a query whose declared query type is neither
"metrics" nor "slo" fails as a whole: `buildQueryExecutors` aborts (the
Go code panics with "Unrecognized query type", which kills the whole
request — no partial results and no silent defaulting of the query type),
and so `executeTimeSeriesQuery` returns a batch-level error and no
per-query responses. -/
theorem claim2_buildQueryExecutors :
    ∀ req query g, query ∈ req.queries → query.json = some g →
      g.queryType ≠ "metrics" → g.queryType ≠ "slo" →
      (∃ e, buildQueryExecutors req = Except.error e) ∧
      (∀ oracle, ∃ e, executeTimeSeriesQuery req oracle = Except.error e) := by
  intro req query g hmem hjson h1 h2
  have hb : ∃ e, buildQueryExecutors req = Except.error e := by
    cases hq : req.queries with
    | nil => rw [hq] at hmem; cases hmem
    | cons first rest =>
      rw [hq] at hmem
      obtain ⟨e, he⟩ := buildExecutorsLoop_error first.timeFromSec first.timeToSec
        (first.timeToSec - first.timeFromSec) (first :: rest) query g hmem hjson h1 h2
      exact ⟨e, by unfold buildQueryExecutors; rw [hq]; exact he⟩
  obtain ⟨e, he⟩ := hb
  exact ⟨⟨e, he⟩, fun oracle =>
    ⟨e, by unfold executeTimeSeriesQuery; rw [he]; rfl⟩⟩

/-- The query of the C2 witness batch: declared type "bogus". -/
def claim2Query : DataQuery :=
  { refID := "A", json := some { queryType := "bogus" } }

/-- The C2 witness batch. -/
def claim2Req : QueryDataRequest := { queries := [claim2Query] }

/-- C2 witness: the theorem applied to a concrete batch with an
unrecognized query type. -/
theorem claim2_witness :
    (∃ e, buildQueryExecutors claim2Req = Except.error e) ∧
    (∃ e, executeTimeSeriesQuery claim2Req (fun _ => {}) = Except.error e) := by
  have h := claim2_buildQueryExecutors claim2Req claim2Query
    { queryType := "bogus" } (by simp [claim2Req]) rfl (by decide) (by decide)
  exact ⟨h.1, h.2 (fun _ => {})⟩

/-- The C1 concrete batch: three queries A, B, C sharing one time range. -/
def claim1Req : QueryDataRequest := { queries :=
  [{ refID := "A",
     json := some { queryType := "metrics", metricQuery := { metricType := "m1" } },
     intervalMs := 15000, timeFromSec := 0, timeToSec := 3600 },
   { refID := "B",
     json := some { queryType := "metrics", metricQuery := { metricType := "m2" } },
     intervalMs := 15000, timeFromSec := 0, timeToSec := 3600 },
   { refID := "C",
     json := some { queryType := "slo",
                    sloQuery := { selectorName := "select_slo_health" } },
     intervalMs := 15000, timeFromSec := 0, timeToSec := 3600 }] }

/-- The C1 concrete oracle: query B receives a remote 500, its siblings a
parsable 200 with one series. -/
def claim1Oracle : RemoteOracle := fun r =>
  if r = "B" then { statusCode := 500, body := "remote 500" }
  else { statusCode := 200, parsed := some { timeSeries := ["s1"] } }

/-- C1: a non-2xx status or unparseable body makes `unmarshalResponse`
fail; under the spec-modelled `run`, that failure is attached as a
query-level error only to that query's slot (keyed by its reference id),
and every sibling's slot carries its own parsed frames — the batch result
is the per-executor map of `slotOf`, each slot depending only on that
query's own remote response.  In the concrete batch of three queries
where query B receives a remote 500, A and C return their frames and only
B carries an error. -/
theorem claim1_executeTimeSeriesQuery :
    (∀ res : HttpResponse, res.statusCode / 100 ≠ 2 →
      unmarshalResponse res = Except.error ("query failed: " ++ res.body)) ∧
    (∀ res : HttpResponse, res.statusCode / 100 = 2 → res.parsed = none →
      unmarshalResponse res = Except.error "failed to unmarshal query response") ∧
    (∀ res data, res.statusCode / 100 = 2 → res.parsed = some data →
      unmarshalResponse res = Except.ok data) ∧
    (∀ req oracle execs, buildQueryExecutors req = Except.ok execs →
      executeTimeSeriesQuery req oracle =
        Except.ok (execs.map (slotOf oracle))) ∧
    executeTimeSeriesQuery claim1Req claim1Oracle = Except.ok
      [("A", { frames := [{ fields := [{}, {}] }], error := none }),
       ("B", { frames := [], error := some "query failed: remote 500" }),
       ("C", { frames := [{ fields := [{}, {}] }], error := none })] := by
  refine ⟨?_, ?_, ?_, ?_, by decide⟩
  · intro res h
    simp [unmarshalResponse, h]
  · intro res h1 h2
    simp [unmarshalResponse, h1, h2]
  · intro res data h1 h2
    simp [unmarshalResponse, h1, h2]
  · intro req oracle execs h
    unfold executeTimeSeriesQuery
    rw [h]
    exact executeLoop_eq_map oracle execs

/-- The C1 witness batch: one raw-language (MQL) query. -/
def claim1ReqW : QueryDataRequest := { queries :=
  [{ refID := "A",
     json := some { queryType := "metrics",
                    metricQuery := { editorMode := "mql", query := "fetch x" } },
     intervalMs := 1000, timeFromSec := 0, timeToSec := 60 }] }

/-- The executor list `buildQueryExecutors` produces for `claim1ReqW`. -/
def claim1ExecsW : List CMQueryExecutor :=
  [CMQueryExecutor.tsquery
    { refID := "A", projectName := "", query := "fetch x", intervalMs := 1000,
      aliasBy := "", timeRangeFromSec := 0, timeRangeToSec := 60 }]

/-- C1 witness: the theorem applied to a concrete batch and a failing
remote response. -/
theorem claim1_witness :
    unmarshalResponse { statusCode := 500, body := "boom" } =
      Except.error ("query failed: " ++ "boom") ∧
    executeTimeSeriesQuery claim1ReqW (fun _ => { statusCode := 500, body := "x" }) =
      Except.ok [("A", { frames := [], error := some "query failed: x" })] := by
  refine ⟨claim1_executeTimeSeriesQuery.1 _ (by decide), ?_⟩
  rw [claim1_executeTimeSeriesQuery.2.2.2.1 claim1ReqW _ claim1ExecsW (by decide)]
  decide

end CloudMonitoring
